import Mathlib

/-!
Verification of the `allo` IPA consonant catalogue.

The repository consists of two Rust modules, `graphemes.rs` and `ipa.rs`,
each declaring nine constant arrays of grapheme strings grouped by manner
of articulation, plus a small taxonomy of enums (`Place`, `Articulation`,
`Manner`, `Phonation`) in `ipa.rs`.  We embed each constant array as a
`List String` (Rust `[&'static str; N]` becomes a Lean list; the length is
recovered as a theorem) and each enum as a Lean inductive type, keeping the
source's names and the exact Unicode escape of every element.
-/

namespace graphemes

/-- `NASALS` from graphemes.rs: the 14 nasal graphemes. -/
def NASALS : List String :=
  ["m", "m", "ɱ", "ɱ", "n", "n", "n", "n", "ɲ",
   "ɲ", "ŋ", "ŋ", "ɴ", "ɴ"]

/-- `PLOSIVES` from graphemes.rs: the 18 plosive graphemes. -/
def PLOSIVES : List String :=
  ["p", "b", "p", "b", "t", "d", "t", "d", "ʈ",
   "ɖ", "c", "ɟ", "k", "ɡ", "q", "ɢ", "ʡ", "ʔ"]

/-- `TRILLS` from graphemes.rs: the 7 trill graphemes. -/
def TRILLS : List String :=
  ["ʙ", "r", "r", "ɽ", "ʀ", "ʀ", "ᴙ"]

/-- `TAPS` from graphemes.rs: the 5 tap/flap graphemes. -/
def TAPS : List String :=
  ["ⱱ", "ⱱ", "ɾ", "ɾ", "ɽ"]

/-- `FRICATIVES` from graphemes.rs: the 26 fricative graphemes. -/
def FRICATIVES : List String :=
  ["ɸ", "β", "f", "v", "θ", "ð", "s", "z", "ʃ",
   "ʒ", "ɕ", "ʑ", "ʂ", "ʐ", "ç", "ʝ", "x",
   "ɣ", "χ", "ʁ", "ħ", "ʕ", "ʜ", "ʢ", "h",
   "ɦ"]

/-- `LAT_FRICATIVES` from graphemes.rs: the 2 lateral-fricative graphemes. -/
def LAT_FRICATIVES : List String :=
  ["ɬ", "ɮ"]

/-- `LAT_APPROX` from graphemes.rs: the 4 lateral-approximant graphemes. -/
def LAT_APPROX : List String :=
  ["l", "ɭ", "ʎ", "ʟ"]

/-- `APPROX` from graphemes.rs: the 6 approximant graphemes. -/
def APPROX : List String :=
  ["ʋ", "ɹ", "ɻ", "j", "j", "ɰ"]

/-- `AFFRICATES` from graphemes.rs: the 20 affricate-constituent graphemes. -/
def AFFRICATES : List String :=
  ["p", "b", "p", "b", "t", "d", "t", "d", "t",
   "d", "t", "d", "ʈ", "ɖ", "c", "c", "k", "ɡ",
   "q", "ɢ"]

end graphemes

namespace ipa

/-- `NASALS` from ipa.rs (duplicate of the graphemes.rs table). -/
def NASALS : List String :=
  ["m", "m", "ɱ", "ɱ", "n", "n", "n", "n", "ɲ",
   "ɲ", "ŋ", "ŋ", "ɴ", "ɴ"]

/-- `PLOSIVES` from ipa.rs (duplicate of the graphemes.rs table). -/
def PLOSIVES : List String :=
  ["p", "b", "p", "b", "t", "d", "t", "d", "ʈ",
   "ɖ", "c", "ɟ", "k", "ɡ", "q", "ɢ", "ʡ", "ʔ"]

/-- `TRILLS` from ipa.rs (duplicate of the graphemes.rs table). -/
def TRILLS : List String :=
  ["ʙ", "r", "r", "ɽ", "ʀ", "ʀ", "ᴙ"]

/-- `TAPS` from ipa.rs (duplicate of the graphemes.rs table). -/
def TAPS : List String :=
  ["ⱱ", "ⱱ", "ɾ", "ɾ", "ɽ"]

/-- `FRICATIVES` from ipa.rs (duplicate of the graphemes.rs table). -/
def FRICATIVES : List String :=
  ["ɸ", "β", "f", "v", "θ", "ð", "s", "z", "ʃ",
   "ʒ", "ɕ", "ʑ", "ʂ", "ʐ", "ç", "ʝ", "x",
   "ɣ", "χ", "ʁ", "ħ", "ʕ", "ʜ", "ʢ", "h",
   "ɦ"]

/-- `LAT_FRICATIVES` from ipa.rs (duplicate of the graphemes.rs table). -/
def LAT_FRICATIVES : List String :=
  ["ɬ", "ɮ"]

/-- `LAT_APPROX` from ipa.rs (duplicate of the graphemes.rs table). -/
def LAT_APPROX : List String :=
  ["l", "ɭ", "ʎ", "ʟ"]

/-- `APPROX` from ipa.rs (duplicate of the graphemes.rs table). -/
def APPROX : List String :=
  ["ʋ", "ɹ", "ɻ", "j", "j", "ɰ"]

/-- `AFFRICATES` from ipa.rs (duplicate of the graphemes.rs table). -/
def AFFRICATES : List String :=
  ["p", "b", "p", "b", "t", "d", "t", "d", "t",
   "d", "t", "d", "ʈ", "ɖ", "c", "c", "k", "ɡ",
   "q", "ɢ"]

/-- The `Place` enum of ipa.rs, with the source's constructor spellings;
the second variant is declared `Corona` in the source. -/
inductive Place where
  | Labial
  | Corona
  | Dorsal
  | Laryngeal
  deriving DecidableEq, Repr

/-- The constructor names of `Place` as declared in ipa.rs, in declaration
order, transcribed exactly (the second is `Corona`, not `Coronal`). -/
def placeVariantNames : List String :=
  ["Labial", "Corona", "Dorsal", "Laryngeal"]

/-- The `Manner` enum of ipa.rs: nine variants, `Fricative` carrying a
`sibilant` boolean; the `Affricate` variant is commented out in the source
and hence absent. -/
inductive Manner where
  | Nasal
  | Plosive
  | Fricative (sibilant : Bool)
  | Approximant
  | TapFlap
  | Trill
  | LatFric
  | LatApprox
  | LatTapFlap
  deriving DecidableEq, Repr

/-- The constructor names of `Manner` as declared in ipa.rs, in declaration
order. -/
def mannerVariantNames : List String :=
  ["Nasal", "Plosive", "Fricative", "Approximant", "TapFlap", "Trill",
   "LatFric", "LatApprox", "LatTapFlap"]

/-- Every value of the `Manner` type, enumerated: the nine constructors,
with both instantiations of the `sibilant` field of `Fricative`. -/
def allManners : List Manner :=
  [.Nasal, .Plosive, .Fricative true, .Fricative false, .Approximant,
   .TapFlap, .Trill, .LatFric, .LatApprox, .LatTapFlap]

end ipa

/-- Claim C1: the eight simple-manner tables have lengths 14, 18, 7, 5, 26,
2, 4 and 6 (summing to 82), and the AFFRICATES table has 20 elements, in
both modules. -/
theorem c1_table_lengths :
    graphemes.NASALS.length = 14 ∧ graphemes.PLOSIVES.length = 18 ∧
    graphemes.TRILLS.length = 7 ∧ graphemes.TAPS.length = 5 ∧
    graphemes.FRICATIVES.length = 26 ∧ graphemes.LAT_FRICATIVES.length = 2 ∧
    graphemes.LAT_APPROX.length = 4 ∧ graphemes.APPROX.length = 6 ∧
    graphemes.NASALS.length + graphemes.PLOSIVES.length +
      graphemes.TRILLS.length + graphemes.TAPS.length +
      graphemes.FRICATIVES.length + graphemes.LAT_FRICATIVES.length +
      graphemes.LAT_APPROX.length + graphemes.APPROX.length = 82 ∧
    graphemes.AFFRICATES.length = 20 ∧
    ipa.NASALS.length = 14 ∧ ipa.PLOSIVES.length = 18 ∧
    ipa.TRILLS.length = 7 ∧ ipa.TAPS.length = 5 ∧
    ipa.FRICATIVES.length = 26 ∧ ipa.LAT_FRICATIVES.length = 2 ∧
    ipa.LAT_APPROX.length = 4 ∧ ipa.APPROX.length = 6 ∧
    ipa.AFFRICATES.length = 20 := by
  decide

/-- Claim C2: the lateral-fricative table is exactly the two-element
sequence with the voiceless symbol at even index 0 and the voiced symbol at
odd index 1, and no other elements. -/
theorem c2_lat_fricatives_literal :
    graphemes.LAT_FRICATIVES = ["ɬ", "ɮ"] ∧
    graphemes.LAT_FRICATIVES[0]? = some "ɬ" ∧
    graphemes.LAT_FRICATIVES[1]? = some "ɮ" ∧
    graphemes.LAT_FRICATIVES.length = 2 := by
  decide

/-- Claim C3: every element of FRICATIVES is either one of the 8 sibilant
graphemes or one of the 18 non-sibilant graphemes, every listed grapheme
occurs in FRICATIVES, and the 8 sibilants occupy indices 6 through 13
contiguously. -/
theorem c3_fricatives_partition :
    (∀ s ∈ graphemes.FRICATIVES,
      s ∈ (["s", "z", "ʃ", "ʒ", "ɕ", "ʑ", "ʂ", "ʐ"] : List String) ∨
      s ∈ (["ɸ", "β", "f", "v", "θ", "ð", "ç", "ʝ", "x", "ɣ", "χ", "ʁ",
            "ħ", "ʕ", "ʜ", "ʢ", "h", "ɦ"] : List String)) ∧
    (∀ s ∈ (["s", "z", "ʃ", "ʒ", "ɕ", "ʑ", "ʂ", "ʐ", "ɸ", "β", "f", "v",
             "θ", "ð", "ç", "ʝ", "x", "ɣ", "χ", "ʁ", "ħ", "ʕ", "ʜ", "ʢ",
             "h", "ɦ"] : List String), s ∈ graphemes.FRICATIVES) ∧
    (graphemes.FRICATIVES.drop 6).take 8 =
      ["s", "z", "ʃ", "ʒ", "ɕ", "ʑ", "ʂ", "ʐ"] := by
  decide

/-- Witness for C3: the sibilant "s" is an element of FRICATIVES and is
classified into one of the two listed sets. -/
theorem c3_fricatives_partition_witness :
    ("s" : String) ∈ (["s", "z", "ʃ", "ʒ", "ɕ", "ʑ", "ʂ", "ʐ"] : List String) ∨
    ("s" : String) ∈ (["ɸ", "β", "f", "v", "θ", "ð", "ç", "ʝ", "x", "ɣ",
                       "χ", "ʁ", "ħ", "ʕ", "ʜ", "ʢ", "h", "ɦ"] : List String) :=
  c3_fricatives_partition.1 "s" (by decide)

/-- Claim C4: for each of the nine table names, the array declared in
graphemes.rs is element-wise equal to the array of the same name declared
in ipa.rs. -/
theorem c4_duplicated_tables :
    graphemes.NASALS = ipa.NASALS ∧ graphemes.PLOSIVES = ipa.PLOSIVES ∧
    graphemes.TRILLS = ipa.TRILLS ∧ graphemes.TAPS = ipa.TAPS ∧
    graphemes.FRICATIVES = ipa.FRICATIVES ∧
    graphemes.LAT_FRICATIVES = ipa.LAT_FRICATIVES ∧
    graphemes.LAT_APPROX = ipa.LAT_APPROX ∧
    graphemes.APPROX = ipa.APPROX ∧
    graphemes.AFFRICATES = ipa.AFFRICATES := by
  decide

/-- Claim C5: TRILLS has exactly 7 entries, its last entry (index 6) is the
non-standard grapheme "ᴙ" (U+1D19), and indices 4 and 5 hold the identical
uvular-trill grapheme "ʀ" with no distinct voiceless symbol. -/
theorem c5_trills_anomalies :
    graphemes.TRILLS.length = 7 ∧
    graphemes.TRILLS[6]? = some "ᴙ" ∧
    graphemes.TRILLS[4]? = some "ʀ" ∧
    graphemes.TRILLS[5]? = some "ʀ" ∧
    graphemes.TRILLS[4]? = graphemes.TRILLS[5]? := by
  decide

/-- Counterexample to C6 as stated: the two-character string "cç" occurs
nowhere in AFFRICATES (its occurrence count is zero in both modules), so no
index i has AFFRICATES[i] and AFFRICATES[i+1] both equal to "cç". -/
theorem c6_no_two_char_entry :
    graphemes.AFFRICATES.count "cç" = 0 ∧ ipa.AFFRICATES.count "cç" = 0 := by
  decide

/-- Amended C6: the AFFRICATES array duplicates the palatal affricate entry
as the single-character grapheme "c": AFFRICATES[14] and AFFRICATES[15] are
both exactly "c" (the two-character sequence "cç" appears only in the doc
comment above the array). -/
theorem c6_duplicated_c_entry :
    graphemes.AFFRICATES[14]? = some "c" ∧
    graphemes.AFFRICATES[15]? = some "c" ∧
    ipa.AFFRICATES[14]? = some "c" ∧
    ipa.AFFRICATES[15]? = some "c" := by
  decide

/-- Claim C7 (against the code as written): `Place` has exactly four
variants, but the second is spelled `Corona` in the source, not `Coronal`
as the spec and the source's own doc comment say: the declared name list
has length 4, its entry at index 1 is "Corona", the name "Coronal" does not
occur, and every `Place` value is one of the four declared constructors. -/
theorem c7_place_variant_names :
    ipa.placeVariantNames.length = 4 ∧
    ipa.placeVariantNames[1]? = some "Corona" ∧
    ipa.placeVariantNames.count "Coronal" = 0 ∧
    ipa.placeVariantNames.count "Labial" = 1 ∧
    ipa.placeVariantNames.count "Dorsal" = 1 ∧
    ipa.placeVariantNames.count "Laryngeal" = 1 ∧
    (∀ p : ipa.Place,
      p = ipa.Place.Labial ∨ p = ipa.Place.Corona ∨
      p = ipa.Place.Dorsal ∨ p = ipa.Place.Laryngeal) := by
  refine ⟨rfl, rfl, rfl, rfl, rfl, rfl, ?_⟩
  intro p
  cases p <;> simp

/-- Claim C8: `Manner` has exactly nine variants with `Fricative` carrying
a boolean field and no `Affricate` variant: the declared name list has the
nine expected names in order, "Affricate" does not occur, the ten concrete
values are pairwise distinct, and every `Manner` value is one of the nine
constructor forms. -/
theorem c8_manner_variants :
    ipa.mannerVariantNames =
      ["Nasal", "Plosive", "Fricative", "Approximant", "TapFlap", "Trill",
       "LatFric", "LatApprox", "LatTapFlap"] ∧
    ipa.mannerVariantNames.length = 9 ∧
    ipa.mannerVariantNames.count "Affricate" = 0 ∧
    ipa.allManners.Nodup ∧
    (∀ m : ipa.Manner, m ∈ ipa.allManners) ∧
    (∀ m : ipa.Manner,
      m = ipa.Manner.Nasal ∨ m = ipa.Manner.Plosive ∨
      (∃ b : Bool, m = ipa.Manner.Fricative b) ∨
      m = ipa.Manner.Approximant ∨ m = ipa.Manner.TapFlap ∨
      m = ipa.Manner.Trill ∨ m = ipa.Manner.LatFric ∨
      m = ipa.Manner.LatApprox ∨ m = ipa.Manner.LatTapFlap) := by
  refine ⟨rfl, rfl, rfl, by decide, ?_, ?_⟩
  · intro m
    cases m <;> simp [ipa.allManners]
  · intro m
    cases m <;> simp

/-- Claim C9: graphemes do not uniquely identify entries: within NASALS
each even-indexed element equals the following odd-indexed one (so "n"
occurs four times), "ɽ" appears in both TRILLS and TAPS, and "p", "b", "t",
"d" appear in both PLOSIVES and AFFRICATES. -/
theorem c9_graphemes_not_unique :
    (∀ i : Fin 7,
      graphemes.NASALS[2 * i.val]? = graphemes.NASALS[2 * i.val + 1]?) ∧
    graphemes.NASALS.count "n" = 4 ∧
    "ɽ" ∈ graphemes.TRILLS ∧ "ɽ" ∈ graphemes.TAPS ∧
    (∀ s ∈ (["p", "b", "t", "d"] : List String),
      s ∈ graphemes.PLOSIVES ∧ s ∈ graphemes.AFFRICATES) := by
  decide

/-- Witness for C9: the grapheme "p" is in both PLOSIVES and AFFRICATES. -/
theorem c9_graphemes_not_unique_witness :
    ("p" : String) ∈ graphemes.PLOSIVES ∧
    ("p" : String) ∈ graphemes.AFFRICATES :=
  c9_graphemes_not_unique.2.2.2.2 "p" (by decide)

set_option maxRecDepth 10000 in
/-- Claim C10: every element of all nine constant tables in both modules is
exactly one Unicode scalar value (no combining diacritics, no two-character
sequences), and in particular NASALS[0] and NASALS[1] are both exactly
"m". -/
theorem c10_single_scalar :
    (∀ s ∈ graphemes.NASALS ++ graphemes.PLOSIVES ++ graphemes.TRILLS ++
            graphemes.TAPS ++ graphemes.FRICATIVES ++
            graphemes.LAT_FRICATIVES ++ graphemes.LAT_APPROX ++
            graphemes.APPROX ++ graphemes.AFFRICATES ++
            ipa.NASALS ++ ipa.PLOSIVES ++ ipa.TRILLS ++ ipa.TAPS ++
            ipa.FRICATIVES ++ ipa.LAT_FRICATIVES ++ ipa.LAT_APPROX ++
            ipa.APPROX ++ ipa.AFFRICATES, s.length = 1) ∧
    graphemes.NASALS[0]? = some "m" ∧
    graphemes.NASALS[1]? = some "m" := by
  decide

set_option maxRecDepth 10000 in
/-- Witness for C10: the non-standard trill grapheme "ᴙ" is in the combined
table and has length one. -/
theorem c10_single_scalar_witness : ("ᴙ" : String).length = 1 :=
  c10_single_scalar.1 "ᴙ" (by decide)
